import Mathlib

/-!
Shallow embedding of `src/infrastructure/glue-scripts/workflow_etl_template.py`,
the single Glue PySpark stage template of this repository.

The script is a linear pipeline executed top to bottom:
argument resolution (`getResolvedOptions`) → Spark/Glue context creation →
S3 JSON read → metadata-column transform → S3 JSON write → `job.commit()`.
We model it as a pure function from an environment (invocation arguments,
object-store contents, clock, write availability) to a run result holding
the emitted event trace (prints, I/O events, the commit signal), the final
outcome (success or the Python exception that propagated), and the
object-store contents after the run.
-/

set_option autoImplicit false

namespace GlueETL

/-- A JSON scalar value as it appears in a dataframe cell.  `ts` models the
value produced by Spark's `current_timestamp()`. -/
inductive Val where
  | str (s : String)
  | int (n : Int)
  | bool (b : Bool)
  | null
  | ts (t : Nat)
  deriving DecidableEq, Repr

/-- One dataframe row: an ordered association of field names to values
(fields absent from a row are nulls of the inferred schema). -/
abbrev Record := List (String × Val)

/-- A Spark dataframe: the inferred schema's column names plus the rows. -/
structure Dataset where
  cols : List String
  rows : List Record
  deriving DecidableEq, Repr

/-- Row-level effect of Spark's `withColumn name value` with a literal value:
if the row already has fields named `name` they are overwritten in place,
otherwise the field is appended. -/
def recordSetColumn (r : Record) (name : String) (v : Val) : Record :=
  if r.any (fun p => p.1 == name) then
    r.map (fun p => if p.1 == name then (name, v) else p)
  else
    r ++ [(name, v)]

/-- `DataFrame.withColumn` for a literal column value: every row receives the
value, and the column name joins the schema if it is new. -/
def Dataset.withColumn (d : Dataset) (name : String) (v : Val) : Dataset :=
  { cols := if name ∈ d.cols then d.cols else d.cols ++ [name]
    rows := d.rows.map (fun r => recordSetColumn r name v) }

/-- The metadata transform of lines 123–135 of the script: four chained
`withColumn` calls adding the processing timestamp, job name, execution id
and current stage. -/
def transformRecord (jobName executionId stage : String) (t : Nat) (r : Record) : Record :=
  recordSetColumn
    (recordSetColumn
      (recordSetColumn
        (recordSetColumn r "glue_processing_timestamp" (Val.ts t))
        "glue_job_name" (Val.str jobName))
      "execution_id" (Val.str executionId))
    "stage" (Val.str stage)

/-- Dataframe-level metadata transform (`transformed_df` in the script). -/
def transform (jobName executionId stage : String) (t : Nat) (d : Dataset) : Dataset :=
  (((d.withColumn "glue_processing_timestamp" (Val.ts t)).withColumn
      "glue_job_name" (Val.str jobName)).withColumn
      "execution_id" (Val.str executionId)).withColumn
      "stage" (Val.str stage)

/-- The Python exceptions the spec names; `configurationError` carries the
missing argument key (awsglue's `GlueArgumentError`). -/
inductive JobError where
  | configurationError (missingKey : String)
  | inputReadError
  | transformError
  | outputWriteError
  deriving DecidableEq, Repr

/-- Observable events of a run, in program order: Spark/Glue session
creation, `print` lines, `printSchema` output, S3 reads, durable S3 writes,
and the final `job.commit()` signal. -/
inductive Event where
  | sparkInit
  | print (line : String)
  | printSchema (cols : List String)
  | s3Read (bucket key : String)
  | s3Write (bucket key : String)
  | commit
  deriving DecidableEq, Repr

/-- The eight required argument keys of lines 46–55. -/
def requiredKeys : List String :=
  ["JOB_NAME", "execution-id", "input-bucket", "input-key",
   "output-bucket", "output-key", "current-stage", "previous-stage"]

/-- First value bound to `k` among the provided invocation options. -/
def lookupArg (argv : List (String × String)) (k : String) : Option String :=
  (argv.find? (fun p => p.1 == k)).map (fun p => p.2)

/-- `awsglue.utils.getResolvedOptions`: fails on the first required key not
present among the provided options, otherwise hands the options through.
It validates presence only; values are arbitrary strings. -/
def getResolvedOptions (argv : List (String × String)) (keys : List String) :
    Except JobError (List (String × String)) :=
  match keys.find? (fun k => (lookupArg argv k).isNone) with
  | some k => Except.error (JobError.configurationError k)
  | none => Except.ok argv

/-- `args[k]` after a successful `getResolvedOptions`. -/
def argVal (args : List (String × String)) (k : String) : String :=
  (lookupArg args k).getD ""

/-- The object store: entries `(bucket, key, dataset)`. -/
abbrev S3 := List (String × String × Dataset)

def s3Lookup (s3 : S3) (bucket key : String) : Option Dataset :=
  (s3.find? (fun e => e.1 == bucket && e.2.1 == key)).map (fun e => e.2.2)

/-- Overwrite-mode write: any previous object at the address is replaced. -/
def s3Put (s3 : S3) (bucket key : String) (d : Dataset) : S3 :=
  (bucket, key, d) :: s3.filter (fun e => !(e.1 == bucket && e.2.1 == key))

/-- `s3://{bucket}/{key}` as the script interpolates it. -/
def s3Path (bucket key : String) : String :=
  "s3://" ++ bucket ++ "/" ++ key

/-- The world a run executes in: provided invocation options, object-store
contents, the timestamp `current_timestamp()` yields, the string
`datetime.now().isoformat()` yields, and whether the output write succeeds
(S3 availability at write time, an external condition). -/
structure Env where
  argv : List (String × String)
  s3 : S3
  ts : Nat
  nowStr : String
  writeOk : Bool

instance : DecidableEq (Except JobError Unit) := fun x y =>
  match x, y with
  | Except.ok a, Except.ok b =>
      if h : a = b then isTrue (by rw [h]) else isFalse (fun hh => h (Except.ok.inj hh))
  | Except.error a, Except.error b =>
      if h : a = b then isTrue (by rw [h]) else isFalse (fun hh => h (Except.error.inj hh))
  | Except.ok _, Except.error _ => isFalse (fun hh => Except.noConfusion hh)
  | Except.error _, Except.ok _ => isFalse (fun hh => Except.noConfusion hh)

/-- Result of a run: the event trace in program order, the outcome (`ok` iff
the process exits zero after commit; otherwise the propagated exception),
and the object store after the run. -/
structure RunResult where
  trace : List Event
  outcome : Except JobError Unit
  s3After : S3
  deriving DecidableEq, Repr

/-- The start-of-job log block of lines 69–74. -/
def startTrace (jobName executionId cur prev nowStr : String) : List Event :=
  [Event.sparkInit,
   Event.print "=== Glue Job Started ===",
   Event.print ("Job Name: " ++ jobName),
   Event.print ("Execution ID: " ++ executionId),
   Event.print ("Current Stage: " ++ cur),
   Event.print ("Previous Stage: " ++ prev),
   Event.print ("Timestamp: " ++ nowStr)]

/-- The whole script, top to bottom.  Matches the source's control flow:
a `getResolvedOptions` failure aborts before the Spark context exists and
before any I/O; a failed read is logged and re-raised with nothing written;
the transform (total in this template) logs its counts; the write either
persists the transformed dataframe and commits, or is logged and re-raised
leaving the store unchanged. -/
def runJob (env : Env) : RunResult :=
  match getResolvedOptions env.argv requiredKeys with
  | Except.error e => ⟨[], Except.error e, env.s3⟩
  | Except.ok args =>
    let jobName := argVal args "JOB_NAME"
    let executionId := argVal args "execution-id"
    let inB := argVal args "input-bucket"
    let inK := argVal args "input-key"
    let outB := argVal args "output-bucket"
    let outK := argVal args "output-key"
    let cur := argVal args "current-stage"
    let prev := argVal args "previous-stage"
    let input_path := s3Path inB inK
    let tr1 := startTrace jobName executionId cur prev env.nowStr ++
      [Event.print ("Reading input from: " ++ input_path),
       Event.s3Read inB inK]
    match s3Lookup env.s3 inB inK with
    | none =>
        ⟨tr1 ++ [Event.print ("ERROR: Failed to read input from " ++ input_path),
                 Event.print ("Error details: Path does not exist: " ++ input_path)],
         Except.error JobError.inputReadError, env.s3⟩
    | some input_df =>
      let input_record_count := input_df.rows.length
      let tr2 := tr1 ++
        [Event.print ("Input records: " ++ toString input_record_count),
         Event.print "Input schema:",
         Event.printSchema input_df.cols,
         Event.print "=== Starting ETL Transformations ==="]
      let transformed_df := transform jobName executionId cur env.ts input_df
      let tr3 := tr2 ++
        (if "candidates" ∈ input_df.cols then
          [Event.print "Applying candidate filtering logic..."]
         else []) ++
        [Event.print "Applying data enrichment logic...",
         Event.print "Applying aggregation logic..."]
      let output_record_count := transformed_df.rows.length
      let tr4 := tr3 ++
        [Event.print ("Output records: " ++ toString output_record_count),
         Event.print ("Records processed: " ++ toString input_record_count),
         Event.print ("Records filtered: " ++
           toString ((input_record_count : Int) - (output_record_count : Int))),
         Event.print "Output schema:",
         Event.printSchema transformed_df.cols]
      let output_path := s3Path outB outK
      let tr5 := tr4 ++ [Event.print ("Writing output to: " ++ output_path)]
      if env.writeOk then
        ⟨tr5 ++
          [Event.s3Write outB outK,
           Event.print ("Successfully wrote " ++ toString output_record_count ++
             " records to " ++ output_path),
           Event.print "=== Glue Job Completed Successfully ===",
           Event.print ("Execution ID: " ++ executionId),
           Event.print ("Stage: " ++ cur),
           Event.print ("Input records: " ++ toString input_record_count),
           Event.print ("Output records: " ++ toString output_record_count),
           Event.print ("Processing time: " ++ env.nowStr),
           Event.commit],
         Except.ok (), s3Put env.s3 outB outK transformed_df⟩
      else
        ⟨tr5 ++
          [Event.print ("ERROR: Failed to write output to " ++ output_path),
           Event.print "Error details: write failed"],
         Except.error JobError.outputWriteError, env.s3⟩

/-- Number of `job.commit()` signals in a trace. -/
def countCommits : List Event → Nat
  | [] => 0
  | Event.commit :: tr => countCommits tr + 1
  | _ :: tr => countCommits tr

/-- Number of durable S3 writes in a trace. -/
def countWrites : List Event → Nat
  | [] => 0
  | Event.s3Write _ _ :: tr => countWrites tr + 1
  | _ :: tr => countWrites tr

/-- True iff no commit signal occurs before the first durable write:
the first commit event, if any, is preceded by a write event. -/
def writePrecedesCommit : List Event → Bool
  | [] => true
  | Event.commit :: _ => false
  | Event.s3Write _ _ :: _ => true
  | _ :: tr => writePrecedesCommit tr

/-- The four metadata field names the transform introduces. -/
def metaKeys : List String :=
  ["glue_processing_timestamp", "glue_job_name", "execution_id", "stage"]

/-- Projection of a row onto its original (non-metadata) fields. -/
def dropMeta (r : Record) : Record :=
  r.filter (fun p => !(metaKeys.contains p.1))

/-- Remove one named field from every row and from the schema. -/
def dropNamed (r : Record) (name : String) : Record :=
  r.filter (fun p => !(p.1 == name))

def Dataset.dropColumn (d : Dataset) (name : String) : Dataset :=
  { cols := d.cols.filter (fun c => !(c == name))
    rows := d.rows.map (fun r => dropNamed r name) }

/-- `pat` occurs as a contiguous run at the head of `l`. -/
def leadsWith : List Char → List Char → Bool
  | [], _ => true
  | _ :: _, [] => false
  | p :: ps, c :: cs => p == c && leadsWith ps cs

/-- `pat` occurs as a contiguous run somewhere in `l`. -/
def listHasRun (pat : List Char) : List Char → Bool
  | [] => leadsWith pat []
  | c :: cs => leadsWith pat (c :: cs) || listHasRun pat cs

/-- Substring test on strings (for log-content properties). -/
def strHas (s pat : String) : Bool :=
  listHasRun pat.data s.data

-- Concrete environments used by witnesses and counterexamples.

/-- A well-formed option set. -/
def goodArgv : List (String × String) :=
  [("JOB_NAME", "jobA"), ("execution-id", "exec42"),
   ("input-bucket", "bkt"), ("input-key", "in.json"),
   ("output-bucket", "obkt"), ("output-key", "out.json"),
   ("current-stage", "stageX"), ("previous-stage", "stageW")]

/-- A two-row input dataset with no metadata-named fields. -/
def sampleData : Dataset :=
  { cols := ["a", "b"]
    rows := [[("a", Val.str "x"), ("b", Val.int 1)],
             [("a", Val.str "y"), ("b", Val.int 2)]] }

/-- A healthy world: good options, the input object present, writes succeed. -/
def envGood : Env :=
  { argv := goodArgv, s3 := [("bkt", "in.json", sampleData)],
    ts := 7, nowStr := "2026-01-01T00:00:00", writeOk := true }

/-- Same world but the required key `input-key` is absent. -/
def envMissingKey : Env :=
  { envGood with argv := goodArgv.filter (fun p => !(p.1 == "input-key")) }

/-- Same world but the input object is absent. -/
def envNoInput : Env :=
  { envGood with s3 := [] }

/-- Same world but the output write fails. -/
def envWriteFails : Env :=
  { envGood with writeOk := false }

/-- Same world but later clock readings (a re-run of the same stage). -/
def envLater : Env :=
  { envGood with ts := 9, nowStr := "2026-01-02T00:00:00" }

/-- Same world but the input dataset's schema also carries a `candidates`
column (with no values in any row). -/
def envCand : Env :=
  { envGood with s3 :=
      [("bkt", "in.json",
        { cols := sampleData.cols ++ ["candidates"], rows := sampleData.rows })] }

/-- All eight keys present but every value the empty string; the store holds
an object at the (empty-string) input address so the read succeeds. -/
def envEmptyVals : Env :=
  { argv := requiredKeys.map (fun k => (k, "")),
    s3 := [("", "", sampleData)],
    ts := 0, nowStr := "T", writeOk := true }

-- Row-level lemmas about `recordSetColumn` (Spark's `withColumn`).

lemma recordSetColumn_of_fresh (r : Record) (n : String) (v : Val)
    (h : ∀ p ∈ r, p.1 ≠ n) : recordSetColumn r n v = r ++ [(n, v)] := by
  have hany : r.any (fun p => p.1 == n) = false := by
    rw [List.any_eq_false]
    intro p hp
    simp [h p hp]
  unfold recordSetColumn
  rw [hany]
  simp

lemma mem_recordSetColumn_self (r : Record) (n : String) (v : Val) :
    (n, v) ∈ recordSetColumn r n v := by
  unfold recordSetColumn
  by_cases hany : r.any (fun p => p.1 == n) = true
  · rw [if_pos hany]
    rcases List.any_eq_true.mp hany with ⟨q, hq, hqn⟩
    refine List.mem_map.mpr ⟨q, hq, ?_⟩
    rw [if_pos hqn]
  · rw [if_neg hany]
    simp

lemma mem_recordSetColumn_of_ne (r : Record) (n : String) (v : Val)
    (p : String × Val) (hp : p ∈ r) (hne : p.1 ≠ n) :
    p ∈ recordSetColumn r n v := by
  unfold recordSetColumn
  by_cases hany : r.any (fun p => p.1 == n) = true
  · rw [if_pos hany]
    refine List.mem_map.mpr ⟨p, hp, ?_⟩
    rw [if_neg (by simp [hne])]
  · rw [if_neg hany]
    exact List.mem_append_left _ hp

lemma of_mem_recordSetColumn_ne (r : Record) (n : String) (v : Val)
    (p : String × Val) (hp : p ∈ recordSetColumn r n v) (hne : p.1 ≠ n) :
    p ∈ r := by
  unfold recordSetColumn at hp
  by_cases hany : r.any (fun p => p.1 == n) = true
  · rw [if_pos hany] at hp
    rcases List.mem_map.mp hp with ⟨q, hq, hqe⟩
    by_cases hqn : q.1 == n
    · rw [if_pos hqn] at hqe
      exact absurd (by rw [← hqe]) hne
    · rw [if_neg hqn] at hqe
      exact hqe ▸ hq
  · rw [if_neg hany] at hp
    rcases List.mem_append.mp hp with h | h
    · exact h
    · simp at h
      exact absurd (by rw [h]) hne

lemma snd_of_mem_recordSetColumn (r : Record) (n : String) (v : Val)
    (p : String × Val) (hp : p ∈ recordSetColumn r n v) (hpn : p.1 = n) :
    p.2 = v := by
  unfold recordSetColumn at hp
  by_cases hany : r.any (fun p => p.1 == n) = true
  · rw [if_pos hany] at hp
    rcases List.mem_map.mp hp with ⟨q, hq, hqe⟩
    by_cases hqn : q.1 == n
    · rw [if_pos hqn] at hqe
      rw [← hqe]
    · rw [if_neg hqn] at hqe
      rw [← hqe] at hpn
      simp [hpn] at hqn
  · rw [if_neg hany] at hp
    rcases List.mem_append.mp hp with h | h
    · have := List.any_eq_false.mp (Bool.not_eq_true _ ▸ hany) p h
      simp [hpn] at this
    · simp at h
      rw [h]

lemma snd_of_mem_recordSetColumn_ne (r : Record) (n' : String) (v' : Val)
    (n : String) (v : Val) (hne : n ≠ n')
    (ih : ∀ p ∈ r, p.1 = n → p.2 = v) :
    ∀ p ∈ recordSetColumn r n' v', p.1 = n → p.2 = v := by
  intro p hp hpn
  have hpne : p.1 ≠ n' := by rw [hpn]; exact hne
  exact ih p (of_mem_recordSetColumn_ne r n' v' p hp hpne) hpn

-- Lemmas about the whole metadata transform.

lemma fresh_of_meta (r : Record) (h : ∀ p ∈ r, ¬ p.1 ∈ metaKeys) (n : String)
    (hn : n ∈ metaKeys) : ∀ p ∈ r, p.1 ≠ n := by
  intro p hp h'
  exact h p hp (h' ▸ hn)

lemma fresh_append (r : Record) (n n0 : String) (v0 : Val)
    (h : ∀ p ∈ r, p.1 ≠ n) (hne : n0 ≠ n) :
    ∀ p ∈ r ++ [(n0, v0)], p.1 ≠ n := by
  intro p hp
  rcases List.mem_append.mp hp with hm | hm
  · exact h p hm
  · rw [List.mem_singleton.mp hm]
    exact hne

/-- On rows free of metadata field names, the transform is exactly
"append the four metadata fields, in source order". -/
lemma transformRecord_fresh (jn eid st : String) (t : Nat) (r : Record)
    (h : ∀ p ∈ r, ¬ p.1 ∈ metaKeys) :
    transformRecord jn eid st t r =
      r ++ [("glue_processing_timestamp", Val.ts t), ("glue_job_name", Val.str jn),
            ("execution_id", Val.str eid), ("stage", Val.str st)] := by
  have h1 := fresh_of_meta r h "glue_processing_timestamp" (by simp [metaKeys])
  have h2 := fresh_append r "glue_job_name" "glue_processing_timestamp" (Val.ts t)
    (fresh_of_meta r h "glue_job_name" (by simp [metaKeys])) (by decide)
  have h3 := fresh_append _ "execution_id" "glue_job_name" (Val.str jn)
    (fresh_append r "execution_id" "glue_processing_timestamp" (Val.ts t)
      (fresh_of_meta r h "execution_id" (by simp [metaKeys])) (by decide)) (by decide)
  have h4 := fresh_append _ "stage" "execution_id" (Val.str eid)
    (fresh_append _ "stage" "glue_job_name" (Val.str jn)
      (fresh_append r "stage" "glue_processing_timestamp" (Val.ts t)
        (fresh_of_meta r h "stage" (by simp [metaKeys])) (by decide)) (by decide)) (by decide)
  unfold transformRecord
  rw [recordSetColumn_of_fresh _ _ _ h1, recordSetColumn_of_fresh _ _ _ h2,
      recordSetColumn_of_fresh _ _ _ h3, recordSetColumn_of_fresh _ _ _ h4]
  simp

/-- The four metadata fields, with the stage-supplied values, are present in
every transformed row. -/
lemma transformRecord_mem_meta (jn eid st : String) (t : Nat) (r : Record) :
    ("glue_processing_timestamp", Val.ts t) ∈ transformRecord jn eid st t r ∧
    ("glue_job_name", Val.str jn) ∈ transformRecord jn eid st t r ∧
    ("execution_id", Val.str eid) ∈ transformRecord jn eid st t r ∧
    ("stage", Val.str st) ∈ transformRecord jn eid st t r := by
  unfold transformRecord
  refine ⟨?_, ?_, ?_, ?_⟩
  · exact mem_recordSetColumn_of_ne _ _ _ _
      (mem_recordSetColumn_of_ne _ _ _ _
        (mem_recordSetColumn_of_ne _ _ _ _ (mem_recordSetColumn_self _ _ _)
          (by simp)) (by simp)) (by simp)
  · exact mem_recordSetColumn_of_ne _ _ _ _
      (mem_recordSetColumn_of_ne _ _ _ _ (mem_recordSetColumn_self _ _ _)
        (by simp)) (by simp)
  · exact mem_recordSetColumn_of_ne _ _ _ _ (mem_recordSetColumn_self _ _ _) (by simp)
  · exact mem_recordSetColumn_self _ _ _

/-- In a transformed row, any field bearing a metadata name carries the
stage-supplied value: original values under those names are overwritten. -/
lemma transformRecord_snd_meta (jn eid st : String) (t : Nat) (r : Record) :
    ∀ p ∈ transformRecord jn eid st t r,
      (p.1 = "glue_processing_timestamp" → p.2 = Val.ts t) ∧
      (p.1 = "glue_job_name" → p.2 = Val.str jn) ∧
      (p.1 = "execution_id" → p.2 = Val.str eid) ∧
      (p.1 = "stage" → p.2 = Val.str st) := by
  unfold transformRecord
  intro p hp
  refine ⟨?_, ?_, ?_, ?_⟩ <;> intro hpn
  · exact snd_of_mem_recordSetColumn_ne _ "stage" (Val.str st) _ _ (by decide)
      (snd_of_mem_recordSetColumn_ne _ "execution_id" (Val.str eid) _ _ (by decide)
        (snd_of_mem_recordSetColumn_ne _ "glue_job_name" (Val.str jn) _ _ (by decide)
          (fun q hq hqn => snd_of_mem_recordSetColumn _ _ _ q hq hqn)))
      p hp hpn
  · exact snd_of_mem_recordSetColumn_ne _ "stage" (Val.str st) _ _ (by decide)
      (snd_of_mem_recordSetColumn_ne _ "execution_id" (Val.str eid) _ _ (by decide)
        (fun q hq hqn => snd_of_mem_recordSetColumn _ _ _ q hq hqn))
      p hp hpn
  · exact snd_of_mem_recordSetColumn_ne _ "stage" (Val.str st) _ _ (by decide)
      (fun q hq hqn => snd_of_mem_recordSetColumn _ _ _ q hq hqn)
      p hp hpn
  · exact snd_of_mem_recordSetColumn _ _ _ p hp hpn

/-- Projecting away the four appended metadata fields recovers a
metadata-free row. -/
lemma dropMeta_append_meta (r : Record) (v1 v2 v3 v4 : Val)
    (h : ∀ p ∈ r, ¬ p.1 ∈ metaKeys) :
    dropMeta (r ++ [("glue_processing_timestamp", v1), ("glue_job_name", v2),
      ("execution_id", v3), ("stage", v4)]) = r := by
  unfold dropMeta
  rw [List.filter_append]
  have h2 : List.filter (fun p => !(metaKeys.contains p.1))
      [("glue_processing_timestamp", v1), ("glue_job_name", v2),
       ("execution_id", v3), ("stage", v4)] = [] := rfl
  rw [h2, List.append_nil]
  apply List.filter_eq_self.mpr
  intro p hp
  simp [List.contains, h p hp]

-- Lemmas for the timestamp-independence (idempotence) property.

lemma dropNamed_map_overwrite (r : Record) (n : String) (v : Val) :
    dropNamed (r.map (fun p => if p.1 == n then (n, v) else p)) n = dropNamed r n := by
  induction r with
  | nil => rfl
  | cons q tl ih =>
    simp only [dropNamed] at ih ⊢
    rw [List.map_cons]
    cases hq : (q.1 == n) with
    | true =>
      rw [if_pos rfl,
        List.filter_cons_of_neg (p := fun x => !(x.1 == n)) (a := (n, v)) (by simp),
        List.filter_cons_of_neg (p := fun x => !(x.1 == n)) (a := q) (by simp [hq])]
      exact ih
    | false =>
      have hpq : (!(q.1 == n)) = true := by simp [hq]
      rw [if_neg (by simp),
        List.filter_cons_of_pos (p := fun x => !(x.1 == n)) (a := q) hpq,
        List.filter_cons_of_pos (p := fun x => !(x.1 == n)) (a := q) hpq,
        ih]

lemma dropNamed_append (r1 r2 : Record) (n : String) :
    dropNamed (r1 ++ r2) n = dropNamed r1 n ++ dropNamed r2 n := by
  simp [dropNamed, List.filter_append]

lemma dropNamed_setColumn_same (r : Record) (n : String) (v : Val) :
    dropNamed (recordSetColumn r n v) n = dropNamed r n := by
  unfold recordSetColumn
  by_cases hany : r.any (fun p => p.1 == n) = true
  · rw [if_pos hany]
    exact dropNamed_map_overwrite r n v
  · rw [if_neg hany, dropNamed_append]
    simp [dropNamed]

lemma any_dropNamed (r : Record) (n n' : String) (hne : n' ≠ n) :
    (dropNamed r n).any (fun p => p.1 == n') = r.any (fun p => p.1 == n') := by
  induction r with
  | nil => rfl
  | cons q tl ih =>
    simp only [dropNamed] at ih ⊢
    cases hq : (q.1 == n) with
    | true =>
      have h1 : q.1 = n := by simpa using hq
      have h2 : (q.1 == n') = false := by
        rw [h1]
        exact beq_eq_false_iff_ne.mpr (Ne.symm hne)
      rw [List.filter_cons_of_neg (p := fun x => !(x.1 == n)) (a := q) (by simp [hq]),
        ih, List.any_cons, h2]
      simp
    | false =>
      rw [List.filter_cons_of_pos (p := fun x => !(x.1 == n)) (a := q) (by simp [hq]),
        List.any_cons, List.any_cons, ih]

lemma map_overwrite_dropNamed_comm (r : Record) (n n' : String) (v' : Val)
    (hne : n' ≠ n) :
    dropNamed (r.map (fun p => if p.1 == n' then (n', v') else p)) n =
      (dropNamed r n).map (fun p => if p.1 == n' then (n', v') else p) := by
  induction r with
  | nil => rfl
  | cons q tl ih =>
    simp only [dropNamed] at ih ⊢
    rw [List.map_cons]
    cases hq' : (q.1 == n') with
    | true =>
      have h1 : q.1 = n' := by simpa using hq'
      have h2 : (!(q.1 == n)) = true := by
        rw [h1]
        simp [beq_eq_false_iff_ne.mpr hne]
      have h3 : (!((n', v').1 == n)) = true := by
        simp [beq_eq_false_iff_ne.mpr hne]
      rw [if_pos rfl,
          List.filter_cons_of_pos (p := fun x => !(x.1 == n)) (a := (n', v')) h3,
          List.filter_cons_of_pos (p := fun x => !(x.1 == n)) (a := q) h2,
          List.map_cons, if_pos hq', ih]
    | false =>
      rw [if_neg (by simp)]
      cases hq : (q.1 == n) with
      | true =>
        rw [List.filter_cons_of_neg (p := fun x => !(x.1 == n)) (a := q) (by simp [hq]),
            List.filter_cons_of_neg (p := fun x => !(x.1 == n)) (a := q) (by simp [hq]), ih]
      | false =>
        rw [List.filter_cons_of_pos (p := fun x => !(x.1 == n)) (a := q) (by simp [hq]),
            List.filter_cons_of_pos (p := fun x => !(x.1 == n)) (a := q) (by simp [hq]),
            List.map_cons, if_neg (by simp [hq']), ih]

lemma dropNamed_setColumn_ne (r : Record) (n' : String) (v' : Val) (n : String)
    (hne : n' ≠ n) :
    dropNamed (recordSetColumn r n' v') n = recordSetColumn (dropNamed r n) n' v' := by
  unfold recordSetColumn
  rw [any_dropNamed r n n' hne]
  by_cases hany : r.any (fun p => p.1 == n') = true
  · rw [if_pos hany, if_pos hany]
    exact map_overwrite_dropNamed_comm r n n' v' hne
  · rw [if_neg hany, if_neg hany, dropNamed_append]
    have h3 : (n' == n) = false := beq_eq_false_iff_ne.mpr hne
    simp [dropNamed, h3]

/-- Dropping the processing-timestamp column erases the only effect of the
timestamp on a transformed row. -/
lemma dropNamed_transformRecord_t (jn eid st : String) (t t' : Nat) (r : Record) :
    dropNamed (transformRecord jn eid st t r) "glue_processing_timestamp" =
      dropNamed (transformRecord jn eid st t' r) "glue_processing_timestamp" := by
  unfold transformRecord
  rw [dropNamed_setColumn_ne _ _ _ _ (by decide), dropNamed_setColumn_ne _ _ _ _ (by decide),
      dropNamed_setColumn_ne _ _ _ _ (by decide), dropNamed_setColumn_same,
      dropNamed_setColumn_ne _ _ _ _ (by decide), dropNamed_setColumn_ne _ _ _ _ (by decide),
      dropNamed_setColumn_ne _ _ _ _ (by decide), dropNamed_setColumn_same]

-- Dataframe-level corollaries and object-store lemmas.

lemma transform_rows (jn eid st : String) (t : Nat) (d : Dataset) :
    (transform jn eid st t d).rows = d.rows.map (transformRecord jn eid st t) := by
  simp only [transform, Dataset.withColumn, List.map_map]
  rfl

lemma transform_rows_length (jn eid st : String) (t : Nat) (d : Dataset) :
    (transform jn eid st t d).rows.length = d.rows.length := by
  rw [transform_rows]
  exact List.length_map _ _

lemma transform_cols_t (jn eid st : String) (t t' : Nat) (d : Dataset) :
    (transform jn eid st t d).cols = (transform jn eid st t' d).cols := rfl

lemma dropColumn_transform_t (jn eid st : String) (t t' : Nat) (d : Dataset) :
    (transform jn eid st t d).dropColumn "glue_processing_timestamp" =
      (transform jn eid st t' d).dropColumn "glue_processing_timestamp" := by
  unfold Dataset.dropColumn
  have hc := transform_cols_t jn eid st t t' d
  rw [hc, transform_rows, transform_rows, List.map_map, List.map_map]
  have hr : (fun r => dropNamed r "glue_processing_timestamp") ∘ transformRecord jn eid st t =
      (fun r => dropNamed r "glue_processing_timestamp") ∘ transformRecord jn eid st t' := by
    funext r
    exact dropNamed_transformRecord_t jn eid st t t' r
  rw [hr]

lemma s3Lookup_put_same (s3 : S3) (b k : String) (d : Dataset) :
    s3Lookup (s3Put s3 b k d) b k = some d := by
  unfold s3Lookup s3Put
  rw [List.find?_cons_of_pos _ (by simp)]
  rfl

-- Helper lemmas about the pipeline.

lemma getResolvedOptions_ok (argv : List (String × String))
    (h : ∀ k ∈ requiredKeys, (lookupArg argv k).isSome) :
    getResolvedOptions argv requiredKeys = Except.ok argv := by
  unfold getResolvedOptions
  have hfind : requiredKeys.find? (fun k => (lookupArg argv k).isNone) = none := by
    rw [List.find?_eq_none]
    intro k hk
    have hs := h k hk
    simp only [Option.isNone_iff_eq_none]
    intro hc
    rw [hc] at hs
    simp at hs
  rw [hfind]

-- Trace-counting lemmas.

lemma countCommits_append (l1 l2 : List Event) :
    countCommits (l1 ++ l2) = countCommits l1 + countCommits l2 := by
  induction l1 with
  | nil => simp [countCommits]
  | cons e tl ih => cases e <;> (simp [countCommits, ih]; try omega)

lemma countWrites_append (l1 l2 : List Event) :
    countWrites (l1 ++ l2) = countWrites l1 + countWrites l2 := by
  induction l1 with
  | nil => simp [countWrites]
  | cons e tl ih => cases e <;> (simp [countWrites, ih]; try omega)

lemma countCommits_ite_print (c : Prop) [Decidable c] (s : String) :
    countCommits (if c then [Event.print s] else []) = 0 := by
  split <;> rfl

lemma countWrites_ite_print (c : Prop) [Decidable c] (s : String) :
    countWrites (if c then [Event.print s] else []) = 0 := by
  split <;> rfl

/-- A commit-free, write-free prefix does not affect whether the first
commit is preceded by a write. -/
lemma writePrecedesCommit_append (l1 l2 : List Event)
    (hc : countCommits l1 = 0) (hw : countWrites l1 = 0) :
    writePrecedesCommit (l1 ++ l2) = writePrecedesCommit l2 := by
  induction l1 with
  | nil => rfl
  | cons e tl ih =>
    cases e with
    | commit => exact absurd hc (by simp [countCommits])
    | s3Write b k => exact absurd hw (by simp [countWrites])
    | sparkInit =>
      exact ih (by simpa [countCommits] using hc) (by simpa [countWrites] using hw)
    | print s =>
      exact ih (by simpa [countCommits] using hc) (by simpa [countWrites] using hw)
    | printSchema c =>
      exact ih (by simpa [countCommits] using hc) (by simpa [countWrites] using hw)
    | s3Read b k =>
      exact ih (by simpa [countCommits] using hc) (by simpa [countWrites] using hw)

/-- Characterization of a successful run: outcome, final store, and the
count-log lines, in terms of the input dataset found at the input address. -/
lemma runJob_success (env : Env) (d : Dataset)
    (hok : getResolvedOptions env.argv requiredKeys = Except.ok env.argv)
    (hin : s3Lookup env.s3 (argVal env.argv "input-bucket")
      (argVal env.argv "input-key") = some d)
    (hw : env.writeOk = true) :
    (runJob env).outcome = Except.ok () ∧
    (runJob env).s3After = s3Put env.s3 (argVal env.argv "output-bucket")
      (argVal env.argv "output-key")
      (transform (argVal env.argv "JOB_NAME") (argVal env.argv "execution-id")
        (argVal env.argv "current-stage") env.ts d) ∧
    Event.print ("Input records: " ++ toString d.rows.length) ∈ (runJob env).trace ∧
    Event.print ("Output records: " ++
      toString (transform (argVal env.argv "JOB_NAME") (argVal env.argv "execution-id")
        (argVal env.argv "current-stage") env.ts d).rows.length) ∈ (runJob env).trace ∧
    Event.print ("Records filtered: " ++
      toString ((d.rows.length : Int) -
        ((transform (argVal env.argv "JOB_NAME") (argVal env.argv "execution-id")
          (argVal env.argv "current-stage") env.ts d).rows.length : Int))) ∈
      (runJob env).trace := by
  simp only [runJob, hok, hin, hw, if_true]
  refine ⟨trivial, trivial, ?_, ?_, ?_⟩ <;>
    simp [startTrace, List.mem_append]

/-- Characterization of a read-failure run: the error propagates and the
error log line carries the attempted input path. -/
lemma runJob_readFailure (env : Env)
    (hok : getResolvedOptions env.argv requiredKeys = Except.ok env.argv)
    (hin : s3Lookup env.s3 (argVal env.argv "input-bucket")
      (argVal env.argv "input-key") = none) :
    (runJob env).outcome = Except.error JobError.inputReadError ∧
    Event.print ("ERROR: Failed to read input from " ++
      s3Path (argVal env.argv "input-bucket") (argVal env.argv "input-key")) ∈
      (runJob env).trace := by
  simp only [runJob, hok, hin]
  refine ⟨trivial, ?_⟩
  simp [startTrace, List.mem_append]

/-- Characterization of a write-failure run: the error propagates, nothing
is durably written, and the error log line carries the attempted output
path. -/
lemma runJob_writeFailure (env : Env) (d : Dataset)
    (hok : getResolvedOptions env.argv requiredKeys = Except.ok env.argv)
    (hin : s3Lookup env.s3 (argVal env.argv "input-bucket")
      (argVal env.argv "input-key") = some d)
    (hw : env.writeOk = false) :
    (runJob env).outcome = Except.error JobError.outputWriteError ∧
    (runJob env).s3After = env.s3 ∧
    Event.print ("ERROR: Failed to write output to " ++
      s3Path (argVal env.argv "output-bucket") (argVal env.argv "output-key")) ∈
      (runJob env).trace := by
  simp only [runJob, hok, hin, hw]
  rw [if_neg (by simp)]
  refine ⟨rfl, rfl, ?_⟩
  simp [startTrace, List.mem_append]

-- Claim theorems.

/-- Claim C2: if any of the eight required keys is absent from the invocation
arguments, the run fails with a configuration error before anything else
happens: the event trace is empty (no session creation, no read, no write,
no commit) and the object store is untouched. -/
theorem missing_key_aborts_before_io (env : Env)
    (h : ∃ k ∈ requiredKeys, lookupArg env.argv k = none) :
    (∃ k, (runJob env).outcome = Except.error (JobError.configurationError k)) ∧
    (runJob env).trace = [] ∧ (runJob env).s3After = env.s3 := by
  obtain ⟨k, hk, hnone⟩ := h
  have hfind : (requiredKeys.find? (fun k => (lookupArg env.argv k).isNone)).isSome := by
    rw [List.find?_isSome]
    exact ⟨k, hk, by simp [hnone]⟩
  obtain ⟨k0, hk0⟩ := Option.isSome_iff_exists.mp hfind
  have hopts : getResolvedOptions env.argv requiredKeys =
      Except.error (JobError.configurationError k0) := by
    unfold getResolvedOptions
    rw [hk0]
  simp only [runJob, hopts]
  exact ⟨⟨k0, rfl⟩, trivial, trivial⟩

/-- Witness for C2 at a concrete argument set lacking `input-key`. -/
theorem missing_key_aborts_before_io_witness :
    (∃ k ∈ requiredKeys, lookupArg envMissingKey.argv k = none) ∧
    ((∃ k, (runJob envMissingKey).outcome = Except.error (JobError.configurationError k)) ∧
     (runJob envMissingKey).trace = [] ∧
     (runJob envMissingKey).s3After = envMissingKey.s3) :=
  ⟨by decide, missing_key_aborts_before_io envMissingKey (by decide)⟩

/-- Claim C3: if the input object is absent, the run re-raises the read error
(non-zero exit), performs no durable write, and leaves the whole object store
— in particular any object at the output path — unchanged. -/
theorem missing_input_fails_without_write (env : Env)
    (hargs : ∀ k ∈ requiredKeys, (lookupArg env.argv k).isSome)
    (hin : s3Lookup env.s3 (argVal env.argv "input-bucket")
      (argVal env.argv "input-key") = none) :
    (runJob env).outcome = Except.error JobError.inputReadError ∧
    (runJob env).s3After = env.s3 ∧
    s3Lookup (runJob env).s3After (argVal env.argv "output-bucket")
      (argVal env.argv "output-key") =
      s3Lookup env.s3 (argVal env.argv "output-bucket") (argVal env.argv "output-key") ∧
    countWrites (runJob env).trace = 0 ∧
    countCommits (runJob env).trace = 0 := by
  have hok := getResolvedOptions_ok env.argv hargs
  simp only [runJob, hok, hin]
  refine ⟨trivial, trivial, trivial, ?_, ?_⟩ <;>
    simp [countWrites, countCommits, startTrace]

/-- Witness for C3: concrete run against an empty object store. -/
theorem missing_input_fails_without_write_witness :
    (∀ k ∈ requiredKeys, (lookupArg envNoInput.argv k).isSome) ∧
    (s3Lookup envNoInput.s3 (argVal envNoInput.argv "input-bucket")
      (argVal envNoInput.argv "input-key") = none) ∧
    ((runJob envNoInput).outcome = Except.error JobError.inputReadError ∧
     (runJob envNoInput).s3After = envNoInput.s3 ∧
     s3Lookup (runJob envNoInput).s3After (argVal envNoInput.argv "output-bucket")
       (argVal envNoInput.argv "output-key") =
       s3Lookup envNoInput.s3 (argVal envNoInput.argv "output-bucket")
         (argVal envNoInput.argv "output-key") ∧
     countWrites (runJob envNoInput).trace = 0 ∧
     countCommits (runJob envNoInput).trace = 0) :=
  ⟨by decide, by decide,
   missing_input_fails_without_write envNoInput (by decide) (by decide)⟩

/-- Claim C7 counterexample: every required key present but bound to the empty
string, yet the run proceeds, succeeds and commits — no fatal configuration
error is raised on empty values. -/
theorem empty_values_accepted_counterexample :
    (∀ k ∈ requiredKeys, lookupArg envEmptyVals.argv k = some "") ∧
    (runJob envEmptyVals).outcome = Except.ok () ∧
    countCommits (runJob envEmptyVals).trace = 1 := by decide

/-- Claim C7 (amended): argument validation checks presence only.  Whenever
all eight required keys are present — with any values, empty strings included
— no configuration error can be the outcome. -/
theorem presence_only_validation (env : Env)
    (h : ∀ k ∈ requiredKeys, (lookupArg env.argv k).isSome) :
    ∀ k, (runJob env).outcome ≠ Except.error (JobError.configurationError k) := by
  have hok := getResolvedOptions_ok env.argv h
  intro k
  simp only [runJob, hok]
  split
  · simp
  · split
    · simp
    · simp

/-- Witness for the amended C7 at the all-empty-values argument set. -/
theorem presence_only_validation_witness :
    (∀ k ∈ requiredKeys, (lookupArg envEmptyVals.argv k).isSome) ∧
    ∀ k, (runJob envEmptyVals).outcome ≠ Except.error (JobError.configurationError k) :=
  ⟨by decide, presence_only_validation envEmptyVals (by decide)⟩

/-- Claim C1: a successful run on a dataset free of metadata field names
writes a dataset with the same number of rows, where each row is the
corresponding input row with exactly the four metadata fields appended;
projecting the metadata away recovers the input rows as a multiset. -/
theorem stage_round_trip (env : Env) (d : Dataset)
    (hargs : ∀ k ∈ requiredKeys, (lookupArg env.argv k).isSome)
    (hin : s3Lookup env.s3 (argVal env.argv "input-bucket")
      (argVal env.argv "input-key") = some d)
    (hfresh : ∀ r ∈ d.rows, ∀ p ∈ r, ¬ p.1 ∈ metaKeys)
    (hw : env.writeOk = true) :
    (runJob env).outcome = Except.ok () ∧
    ∃ ds, s3Lookup (runJob env).s3After (argVal env.argv "output-bucket")
        (argVal env.argv "output-key") = some ds ∧
      ds.rows.length = d.rows.length ∧
      ds.rows = d.rows.map (fun r => r ++
        [("glue_processing_timestamp", Val.ts env.ts),
         ("glue_job_name", Val.str (argVal env.argv "JOB_NAME")),
         ("execution_id", Val.str (argVal env.argv "execution-id")),
         ("stage", Val.str (argVal env.argv "current-stage"))]) ∧
      (ds.rows.map dropMeta : Multiset Record) = (d.rows : Multiset Record) := by
  obtain ⟨ho, hs3, _, _, _⟩ :=
    runJob_success env d (getResolvedOptions_ok env.argv hargs) hin hw
  have hrows : (transform (argVal env.argv "JOB_NAME") (argVal env.argv "execution-id")
      (argVal env.argv "current-stage") env.ts d).rows = d.rows.map (fun r => r ++
        [("glue_processing_timestamp", Val.ts env.ts),
         ("glue_job_name", Val.str (argVal env.argv "JOB_NAME")),
         ("execution_id", Val.str (argVal env.argv "execution-id")),
         ("stage", Val.str (argVal env.argv "current-stage"))]) := by
    rw [transform_rows]
    exact List.map_congr_left (fun r hr => transformRecord_fresh _ _ _ _ r (hfresh r hr))
  refine ⟨ho, transform (argVal env.argv "JOB_NAME") (argVal env.argv "execution-id")
      (argVal env.argv "current-stage") env.ts d, ?_, ?_, hrows, ?_⟩
  · rw [hs3]
    exact s3Lookup_put_same _ _ _ _
  · exact transform_rows_length _ _ _ _ d
  · have hdrop : (transform (argVal env.argv "JOB_NAME") (argVal env.argv "execution-id")
        (argVal env.argv "current-stage") env.ts d).rows.map dropMeta = d.rows := by
      rw [hrows, List.map_map]
      have hid : ∀ r ∈ d.rows, (dropMeta ∘ fun r => r ++
          [("glue_processing_timestamp", Val.ts env.ts),
           ("glue_job_name", Val.str (argVal env.argv "JOB_NAME")),
           ("execution_id", Val.str (argVal env.argv "execution-id")),
           ("stage", Val.str (argVal env.argv "current-stage"))]) r = r := by
        intro r hr
        exact dropMeta_append_meta r _ _ _ _ (hfresh r hr)
      rw [List.map_congr_left hid]
      simp
    rw [hdrop]

/-- Witness for C1 at the healthy concrete environment. -/
theorem stage_round_trip_witness :
    ((∀ k ∈ requiredKeys, (lookupArg envGood.argv k).isSome) ∧
     s3Lookup envGood.s3 (argVal envGood.argv "input-bucket")
       (argVal envGood.argv "input-key") = some sampleData ∧
     (∀ r ∈ sampleData.rows, ∀ p ∈ r, ¬ p.1 ∈ metaKeys) ∧
     envGood.writeOk = true) ∧
    ((runJob envGood).outcome = Except.ok () ∧
     ∃ ds, s3Lookup (runJob envGood).s3After (argVal envGood.argv "output-bucket")
         (argVal envGood.argv "output-key") = some ds ∧
       ds.rows.length = sampleData.rows.length ∧
       ds.rows = sampleData.rows.map (fun r => r ++
         [("glue_processing_timestamp", Val.ts envGood.ts),
          ("glue_job_name", Val.str (argVal envGood.argv "JOB_NAME")),
          ("execution_id", Val.str (argVal envGood.argv "execution-id")),
          ("stage", Val.str (argVal envGood.argv "current-stage"))]) ∧
       (ds.rows.map dropMeta : Multiset Record) = (sampleData.rows : Multiset Record)) :=
  ⟨⟨by decide, by decide, by decide, by decide⟩,
   stage_round_trip envGood sampleData (by decide) (by decide) (by decide) (by decide)⟩

/-- Claim C5: on a successful run the logged input and output record counts
are the measured counts of the two datasets, the logged filtered count is
their difference, and that difference is zero: output count equals input
count. -/
theorem logged_counts_match (env : Env) (d : Dataset)
    (hargs : ∀ k ∈ requiredKeys, (lookupArg env.argv k).isSome)
    (hin : s3Lookup env.s3 (argVal env.argv "input-bucket")
      (argVal env.argv "input-key") = some d)
    (hw : env.writeOk = true) :
    (runJob env).outcome = Except.ok () ∧
    ∃ ds, s3Lookup (runJob env).s3After (argVal env.argv "output-bucket")
        (argVal env.argv "output-key") = some ds ∧
      Event.print ("Input records: " ++ toString d.rows.length) ∈ (runJob env).trace ∧
      Event.print ("Output records: " ++ toString ds.rows.length) ∈ (runJob env).trace ∧
      Event.print ("Records filtered: " ++
        toString ((d.rows.length : Int) - (ds.rows.length : Int))) ∈ (runJob env).trace ∧
      ds.rows.length = d.rows.length ∧
      (d.rows.length : Int) - (ds.rows.length : Int) = 0 := by
  obtain ⟨ho, hs3, hm1, hm2, hm3⟩ :=
    runJob_success env d (getResolvedOptions_ok env.argv hargs) hin hw
  refine ⟨ho, transform (argVal env.argv "JOB_NAME") (argVal env.argv "execution-id")
      (argVal env.argv "current-stage") env.ts d, ?_, hm1, hm2, hm3, ?_, ?_⟩
  · rw [hs3]
    exact s3Lookup_put_same _ _ _ _
  · exact transform_rows_length _ _ _ _ d
  · rw [transform_rows_length]
    simp

/-- Witness for C5 at the healthy concrete environment. -/
theorem logged_counts_match_witness :
    ((∀ k ∈ requiredKeys, (lookupArg envGood.argv k).isSome) ∧
     s3Lookup envGood.s3 (argVal envGood.argv "input-bucket")
       (argVal envGood.argv "input-key") = some sampleData ∧
     envGood.writeOk = true) ∧
    ((runJob envGood).outcome = Except.ok () ∧
     ∃ ds, s3Lookup (runJob envGood).s3After (argVal envGood.argv "output-bucket")
         (argVal envGood.argv "output-key") = some ds ∧
       Event.print ("Input records: " ++ toString sampleData.rows.length) ∈
         (runJob envGood).trace ∧
       Event.print ("Output records: " ++ toString ds.rows.length) ∈
         (runJob envGood).trace ∧
       Event.print ("Records filtered: " ++
         toString ((sampleData.rows.length : Int) - (ds.rows.length : Int))) ∈
         (runJob envGood).trace ∧
       ds.rows.length = sampleData.rows.length ∧
       (sampleData.rows.length : Int) - (ds.rows.length : Int) = 0) :=
  ⟨⟨by decide, by decide, by decide⟩,
   logged_counts_match envGood sampleData (by decide) (by decide) (by decide)⟩

/-- Claim C4: in every run, a successful outcome carries exactly one commit
signal and exactly one durable write, with the write preceding the commit;
any failing outcome carries no commit at all — the pipeline never reaches
Committed from a failure. -/
theorem commit_exactly_once_after_write (env : Env) :
    ((runJob env).outcome = Except.ok () →
      countCommits (runJob env).trace = 1 ∧
      countWrites (runJob env).trace = 1 ∧
      writePrecedesCommit (runJob env).trace = true) ∧
    (∀ e, (runJob env).outcome = Except.error e →
      countCommits (runJob env).trace = 0) := by
  cases hopts : getResolvedOptions env.argv requiredKeys with
  | error e0 =>
    constructor
    · intro h
      simp [runJob, hopts] at h
    · intro e he
      simp [runJob, hopts, countCommits]
  | ok args =>
    cases hin : s3Lookup env.s3 (argVal args "input-bucket") (argVal args "input-key") with
    | none =>
      constructor
      · intro h
        simp [runJob, hopts, hin] at h
      · intro e he
        simp only [runJob, hopts, hin]
        simp [countCommits_append, countCommits, startTrace]
    | some input_df =>
      cases hw : env.writeOk with
      | false =>
        constructor
        · intro h
          simp [runJob, hopts, hin, hw] at h
        · intro e he
          simp only [runJob, hopts, hin, hw]
          simp [countCommits_append, countCommits_ite_print, countCommits, startTrace]
      | true =>
        constructor
        · intro _
          refine ⟨?_, ?_, ?_⟩
          · simp only [runJob, hopts, hin, hw]
            simp [countCommits_append, countCommits_ite_print, countCommits, startTrace]
          · simp only [runJob, hopts, hin, hw]
            simp [countWrites_append, countWrites_ite_print, countWrites, startTrace]
          · simp only [runJob, hopts, hin, hw]
            rw [if_pos trivial]
            rw [writePrecedesCommit_append]
            · rfl
            · simp [countCommits_append, countCommits_ite_print, countCommits, startTrace]
            · simp [countWrites_append, countWrites_ite_print, countWrites, startTrace]
        · intro e he
          simp [runJob, hopts, hin, hw] at he

/-- Witness for C4 at the healthy concrete environment. -/
theorem commit_exactly_once_after_write_witness :
    (runJob envGood).outcome = Except.ok () ∧
    (countCommits (runJob envGood).trace = 1 ∧
     countWrites (runJob envGood).trace = 1 ∧
     writePrecedesCommit (runJob envGood).trace = true) :=
  ⟨by decide, (commit_exactly_once_after_write envGood).1 (by decide)⟩

/-- Claim C9: a row that already carries one of the four metadata field names
keeps the field, but its value is overwritten with the stage-supplied one;
the original value does not survive under that name. -/
theorem meta_fields_overwritten (jn eid st : String) (t : Nat) (r : Record) :
    (∀ v, ("glue_processing_timestamp", v) ∈ r →
      ("glue_processing_timestamp", Val.ts t) ∈ transformRecord jn eid st t r ∧
      (v ≠ Val.ts t → ("glue_processing_timestamp", v) ∉ transformRecord jn eid st t r)) ∧
    (∀ v, ("glue_job_name", v) ∈ r →
      ("glue_job_name", Val.str jn) ∈ transformRecord jn eid st t r ∧
      (v ≠ Val.str jn → ("glue_job_name", v) ∉ transformRecord jn eid st t r)) ∧
    (∀ v, ("execution_id", v) ∈ r →
      ("execution_id", Val.str eid) ∈ transformRecord jn eid st t r ∧
      (v ≠ Val.str eid → ("execution_id", v) ∉ transformRecord jn eid st t r)) ∧
    (∀ v, ("stage", v) ∈ r →
      ("stage", Val.str st) ∈ transformRecord jn eid st t r ∧
      (v ≠ Val.str st → ("stage", v) ∉ transformRecord jn eid st t r)) := by
  have hmem := transformRecord_mem_meta jn eid st t r
  have hsnd := transformRecord_snd_meta jn eid st t r
  refine ⟨fun v _ => ⟨hmem.1, fun hvne hcon => ?_⟩,
          fun v _ => ⟨hmem.2.1, fun hvne hcon => ?_⟩,
          fun v _ => ⟨hmem.2.2.1, fun hvne hcon => ?_⟩,
          fun v _ => ⟨hmem.2.2.2, fun hvne hcon => ?_⟩⟩
  · exact hvne ((hsnd _ hcon).1 rfl)
  · exact hvne ((hsnd _ hcon).2.1 rfl)
  · exact hvne ((hsnd _ hcon).2.2.1 rfl)
  · exact hvne ((hsnd _ hcon).2.2.2 rfl)

/-- Witness for C9: a row with an existing `stage` field loses its old value
and carries the stage-supplied one. -/
theorem meta_fields_overwritten_witness :
    ("stage", Val.str "old") ∈ ([("stage", Val.str "old")] : Record) ∧
    ("stage", Val.str "s") ∈ transformRecord "j" "e" "s" 5 [("stage", Val.str "old")] ∧
    ("stage", Val.str "old") ∉ transformRecord "j" "e" "s" 5 [("stage", Val.str "old")] := by
  have h := (meta_fields_overwritten "j" "e" "s" 5 [("stage", Val.str "old")]).2.2.2
    (Val.str "old") (by decide)
  exact ⟨by decide, h.1, h.2 (by decide)⟩

/-- Claim C6: two runs with the same arguments against the same store
contents, with writes succeeding, differ in their written output only in the
processing-timestamp column, whatever the two clock readings were. -/
theorem rerun_reproducible_modulo_timestamp (env1 env2 : Env) (d : Dataset)
    (hargv : env2.argv = env1.argv) (hs3 : env2.s3 = env1.s3)
    (hargs : ∀ k ∈ requiredKeys, (lookupArg env1.argv k).isSome)
    (hin : s3Lookup env1.s3 (argVal env1.argv "input-bucket")
      (argVal env1.argv "input-key") = some d)
    (hw1 : env1.writeOk = true) (hw2 : env2.writeOk = true) :
    (runJob env1).outcome = Except.ok () ∧ (runJob env2).outcome = Except.ok () ∧
    ∃ ds1 ds2,
      s3Lookup (runJob env1).s3After (argVal env1.argv "output-bucket")
        (argVal env1.argv "output-key") = some ds1 ∧
      s3Lookup (runJob env2).s3After (argVal env1.argv "output-bucket")
        (argVal env1.argv "output-key") = some ds2 ∧
      ds1.dropColumn "glue_processing_timestamp" =
        ds2.dropColumn "glue_processing_timestamp" := by
  obtain ⟨ho1, hs31, _, _, _⟩ :=
    runJob_success env1 d (getResolvedOptions_ok env1.argv hargs) hin hw1
  have hargs2 : ∀ k ∈ requiredKeys, (lookupArg env2.argv k).isSome := by
    rw [hargv]; exact hargs
  have hin2 : s3Lookup env2.s3 (argVal env2.argv "input-bucket")
      (argVal env2.argv "input-key") = some d := by
    rw [hargv, hs3]; exact hin
  obtain ⟨ho2, hs32, _, _, _⟩ :=
    runJob_success env2 d (getResolvedOptions_ok env2.argv hargs2) hin2 hw2
  rw [hargv] at hs32
  refine ⟨ho1, ho2,
    transform (argVal env1.argv "JOB_NAME") (argVal env1.argv "execution-id")
      (argVal env1.argv "current-stage") env1.ts d,
    transform (argVal env1.argv "JOB_NAME") (argVal env1.argv "execution-id")
      (argVal env1.argv "current-stage") env2.ts d, ?_, ?_, ?_⟩
  · rw [hs31]
    exact s3Lookup_put_same _ _ _ _
  · rw [hs32]
    exact s3Lookup_put_same _ _ _ _
  · exact dropColumn_transform_t _ _ _ env1.ts env2.ts d

/-- Witness for C6: the healthy environment re-run with a later clock. -/
theorem rerun_reproducible_modulo_timestamp_witness :
    (envLater.argv = envGood.argv ∧ envLater.s3 = envGood.s3 ∧
     (∀ k ∈ requiredKeys, (lookupArg envGood.argv k).isSome) ∧
     s3Lookup envGood.s3 (argVal envGood.argv "input-bucket")
       (argVal envGood.argv "input-key") = some sampleData ∧
     envGood.writeOk = true ∧ envLater.writeOk = true) ∧
    ((runJob envGood).outcome = Except.ok () ∧
     (runJob envLater).outcome = Except.ok () ∧
     ∃ ds1 ds2,
       s3Lookup (runJob envGood).s3After (argVal envGood.argv "output-bucket")
         (argVal envGood.argv "output-key") = some ds1 ∧
       s3Lookup (runJob envLater).s3After (argVal envGood.argv "output-bucket")
         (argVal envGood.argv "output-key") = some ds2 ∧
       ds1.dropColumn "glue_processing_timestamp" =
         ds2.dropColumn "glue_processing_timestamp") :=
  ⟨⟨by decide, by decide, by decide, by decide, by decide, by decide⟩,
   rerun_reproducible_modulo_timestamp envGood envLater sampleData
     (by decide) (by decide) (by decide) (by decide) (by decide) (by decide)⟩

/-- Claim C10: presenting the same rows with or without a `candidates`
column in the schema yields identical output rows — the candidates branch
emits its log line (observed in the second run's trace) and transforms
nothing. -/
theorem candidates_branch_log_only (env1 env2 : Env) (d : Dataset)
    (hargv : env2.argv = env1.argv) (hts : env2.ts = env1.ts)
    (hargs : ∀ k ∈ requiredKeys, (lookupArg env1.argv k).isSome)
    (hin1 : s3Lookup env1.s3 (argVal env1.argv "input-bucket")
      (argVal env1.argv "input-key") = some d)
    (hin2 : s3Lookup env2.s3 (argVal env1.argv "input-bucket")
      (argVal env1.argv "input-key") =
      some { cols := d.cols ++ ["candidates"], rows := d.rows })
    (hw1 : env1.writeOk = true) (hw2 : env2.writeOk = true) :
    (runJob env1).outcome = Except.ok () ∧ (runJob env2).outcome = Except.ok () ∧
    Event.print "Applying candidate filtering logic..." ∈ (runJob env2).trace ∧
    ∃ ds1 ds2,
      s3Lookup (runJob env1).s3After (argVal env1.argv "output-bucket")
        (argVal env1.argv "output-key") = some ds1 ∧
      s3Lookup (runJob env2).s3After (argVal env1.argv "output-bucket")
        (argVal env1.argv "output-key") = some ds2 ∧
      ds1.rows = ds2.rows := by
  obtain ⟨ho1, hs31, _, _, _⟩ :=
    runJob_success env1 d (getResolvedOptions_ok env1.argv hargs) hin1 hw1
  have hargs2 : ∀ k ∈ requiredKeys, (lookupArg env2.argv k).isSome := by
    rw [hargv]; exact hargs
  have hok2 := getResolvedOptions_ok env2.argv hargs2
  have hin2a : s3Lookup env2.s3 (argVal env2.argv "input-bucket")
      (argVal env2.argv "input-key") =
      some { cols := d.cols ++ ["candidates"], rows := d.rows } := by
    rw [hargv]; exact hin2
  obtain ⟨ho2, hs32, _, _, _⟩ :=
    runJob_success env2 { cols := d.cols ++ ["candidates"], rows := d.rows }
      hok2 hin2a hw2
  rw [hargv] at hs32
  refine ⟨ho1, ho2, ?_,
    transform (argVal env1.argv "JOB_NAME") (argVal env1.argv "execution-id")
      (argVal env1.argv "current-stage") env1.ts d,
    transform (argVal env1.argv "JOB_NAME") (argVal env1.argv "execution-id")
      (argVal env1.argv "current-stage") env2.ts
      { cols := d.cols ++ ["candidates"], rows := d.rows }, ?_, ?_, ?_⟩
  · simp only [runJob, hok2, hin2a, hw2, if_true]
    simp [startTrace, List.mem_append]
  · rw [hs31]
    exact s3Lookup_put_same _ _ _ _
  · rw [hs32]
    exact s3Lookup_put_same _ _ _ _
  · rw [transform_rows, transform_rows, hts]

/-- Witness for C10: the healthy environment against the same rows with and
without the `candidates` column. -/
theorem candidates_branch_log_only_witness :
    (envCand.argv = envGood.argv ∧ envCand.ts = envGood.ts ∧
     (∀ k ∈ requiredKeys, (lookupArg envGood.argv k).isSome) ∧
     s3Lookup envGood.s3 (argVal envGood.argv "input-bucket")
       (argVal envGood.argv "input-key") = some sampleData ∧
     s3Lookup envCand.s3 (argVal envGood.argv "input-bucket")
       (argVal envGood.argv "input-key") =
       some { cols := sampleData.cols ++ ["candidates"], rows := sampleData.rows } ∧
     envGood.writeOk = true ∧ envCand.writeOk = true) ∧
    ((runJob envGood).outcome = Except.ok () ∧
     (runJob envCand).outcome = Except.ok () ∧
     Event.print "Applying candidate filtering logic..." ∈ (runJob envCand).trace ∧
     ∃ ds1 ds2,
       s3Lookup (runJob envGood).s3After (argVal envGood.argv "output-bucket")
         (argVal envGood.argv "output-key") = some ds1 ∧
       s3Lookup (runJob envCand).s3After (argVal envGood.argv "output-bucket")
         (argVal envGood.argv "output-key") = some ds2 ∧
       ds1.rows = ds2.rows) :=
  ⟨⟨by decide, by decide, by decide, by decide, by decide, by decide, by decide⟩,
   candidates_branch_log_only envGood envCand sampleData
     (by decide) (by decide) (by decide) (by decide) (by decide) (by decide) (by decide)⟩

/-- Claim C8 counterexample: a missing-input run does re-raise the error,
but no single emitted log line contains all three context items — the
current stage name, the execution id, and the affected storage path.  The
error line carries the path only; stage and execution id appear in separate
start-up lines. -/
theorem error_log_context_counterexample :
    (runJob envNoInput).outcome = Except.error JobError.inputReadError ∧
    ((runJob envNoInput).trace.all (fun e =>
      match e with
      | Event.print s =>
        !(strHas s "stageX" && strHas s "exec42" && strHas s "s3://bkt/in.json")
      | _ => true)) = true := by decide

/-- Claim C8 (amended): no read or write error is recovered locally — each
is logged with the attempted storage path and re-raised as the run's
outcome.  The error log line carries the path and error details, not the
stage name or execution id. -/
theorem errors_logged_with_path_and_reraised (env : Env)
    (hargs : ∀ k ∈ requiredKeys, (lookupArg env.argv k).isSome) :
    (s3Lookup env.s3 (argVal env.argv "input-bucket")
        (argVal env.argv "input-key") = none →
      (runJob env).outcome = Except.error JobError.inputReadError ∧
      Event.print ("ERROR: Failed to read input from " ++
        s3Path (argVal env.argv "input-bucket") (argVal env.argv "input-key")) ∈
        (runJob env).trace) ∧
    (∀ d, s3Lookup env.s3 (argVal env.argv "input-bucket")
        (argVal env.argv "input-key") = some d →
      env.writeOk = false →
      (runJob env).outcome = Except.error JobError.outputWriteError ∧
      Event.print ("ERROR: Failed to write output to " ++
        s3Path (argVal env.argv "output-bucket") (argVal env.argv "output-key")) ∈
        (runJob env).trace) := by
  have hok := getResolvedOptions_ok env.argv hargs
  constructor
  · intro hin
    exact runJob_readFailure env hok hin
  · intro d hin hw
    obtain ⟨h1, _, h3⟩ := runJob_writeFailure env d hok hin hw
    exact ⟨h1, h3⟩

/-- Witness for the amended C8: a concrete failing write is logged with the
output path and re-raised. -/
theorem errors_logged_with_path_and_reraised_witness :
    ((∀ k ∈ requiredKeys, (lookupArg envWriteFails.argv k).isSome) ∧
     s3Lookup envWriteFails.s3 (argVal envWriteFails.argv "input-bucket")
       (argVal envWriteFails.argv "input-key") = some sampleData ∧
     envWriteFails.writeOk = false) ∧
    ((runJob envWriteFails).outcome = Except.error JobError.outputWriteError ∧
     Event.print ("ERROR: Failed to write output to " ++
       s3Path (argVal envWriteFails.argv "output-bucket")
         (argVal envWriteFails.argv "output-key")) ∈ (runJob envWriteFails).trace) :=
  ⟨⟨by decide, by decide, by decide⟩,
   (errors_logged_with_path_and_reraised envWriteFails (by decide)).2
     sampleData (by decide) (by decide)⟩

end GlueETL
